import Mathlib

/-!
Shallow embedding of the WeeklySalesEmail reporting pipeline
(src/data_processor.py, src/sales_analytics.py, src/config.py).

Numbers are modelled as rationals (ℚ): every arithmetic operation the
pipeline performs on revenue values (sums, differences, division by a
budget, `* 100`) is exact decimal arithmetic on the inputs that occur in
practice, and the claims under study are either exact identities or
guarded-division facts, so ℚ is the faithful idealisation of Python
floats here.  Python's `float("inf")` sentinel (used by the
year-over-year calculations when the prior-year denominator is 0) is
modelled explicitly by the `RVal` type below.

The `Config` attributes `account_executives` (name → enabled flag +
four quarterly budgets) and `active_aes` are consumed throughout
src/data_processor.py and src/sales_analytics.py but are absent from
src/config.py (they appear in src/tests/conftest.py and the spec §6:
"a mapping of salesperson name → enabled flag + 4 quarterly budget
numbers; an authorized-salesperson allowlist derived from the enabled
set").  They are modelled accordingly: a `Config` is an ordered list of
per-AE entries and `activeAEs` is the list of enabled names.
-/

set_option maxHeartbeats 1000000
set_option maxRecDepth 4000

namespace WeeklySales

/-- A year-quarter column label: `"25Q1"` is `(25, 1)` — the two-digit
calendar year and the quarter number 1..4. -/
abbrev YQ := Nat × Nat

/-- The result of a Python float computation that is either a finite
value or the `float("inf")` sentinel the source assigns when a
year-over-year denominator is zero. -/
inductive RVal where
  | fin : ℚ → RVal
  | inf : RVal
deriving DecidableEq

/-- A raw spreadsheet cell as seen by `DataProcessor._clean_currency`:
missing/NaN (`pd.isna`), a string, or an already-numeric value. -/
inductive CellValue where
  | na : CellValue
  | str : String → CellValue
  | num : ℚ → CellValue
deriving DecidableEq

/-- Decimal value of a digit list (most significant first). -/
def digitsToNat (cs : List Char) : Nat :=
  cs.foldl (fun a c => a * 10 + (c.toNat - 48)) 0

/-- `10 ^ n` on ℚ, by structural recursion so that concrete instances
reduce inside the kernel. -/
def powTen : Nat → ℚ
  | 0 => 1
  | n + 1 => 10 * powTen n

/-- Scale a mantissa by `10 ^ e` for a signed exponent `e`. -/
def applyExp (m : ℚ) : Int → ℚ
  | .ofNat n => m * powTen n
  | .negSucc n => m / powTen (n + 1)

/-- Trim leading and trailing whitespace from a character list
(Python's `str.strip()` with no argument). -/
def trimChars (cs : List Char) : List Char :=
  ((cs.dropWhile Char.isWhitespace).reverse.dropWhile Char.isWhitespace).reverse

/-- Exponent part of a Python float literal: optional sign then a
nonempty digit run, yielding the signed integer exponent. -/
def pyExponent (cs : List Char) : Option Int :=
  let (sgn, rest) : Int × List Char :=
    match cs with
    | '-' :: t => (-1, t)
    | '+' :: t => (1, t)
    | t => (1, t)
  let (ds, tail) := rest.span Char.isDigit
  if ds.isEmpty || !tail.isEmpty then none
  else some (sgn * (digitsToNat ds : Int))

/-- Models Python's `float(s)` on decimal literals: optional sign,
digits with an optional decimal point (at least one digit overall), and
an optional `e`/`E` exponent.  Returns `none` where `float` raises
`ValueError`.  (Python also accepts `inf`/`nan` words and `_` digit
grouping; those never arise from currency cells and are modelled as
parse failures.) -/
def pyFloat (s : String) : Option ℚ :=
  let cs := s.toList
  let (sgn, cs) : ℚ × List Char :=
    match cs with
    | '-' :: t => (-1, t)
    | '+' :: t => (1, t)
    | t => (1, t)
  let (ip, rest) := cs.span Char.isDigit
  let withMantissa : ℚ → List Char → Option ℚ := fun m tail =>
    match tail with
    | [] => some (sgn * m)
    | e :: t =>
      if e = 'e' || e = 'E' then
        (pyExponent t).map fun ex => sgn * applyExp m ex
      else none
  match rest with
  | '.' :: r2 =>
    let (fp, rest2) := r2.span Char.isDigit
    if ip.isEmpty && fp.isEmpty then none
    else
      withMantissa
        ((digitsToNat ip : ℚ) + (digitsToNat fp : ℚ) / powTen fp.length)
        rest2
  | tail =>
    if ip.isEmpty then none
    else withMantissa (digitsToNat ip : ℚ) tail

/-- `value.replace("$", "").replace(",", "").strip()`: replacing a
one-character substring by the empty string removes every occurrence of
that character, so the two `replace` calls are the character filter
below; `strip()` trims surrounding whitespace. -/
def stripCurrency (s : String) : String :=
  String.mk (trimChars (s.toList.filter (fun c => c != '$' && c != ',')))

/-- `DataProcessor._clean_currency` (src/data_processor.py:338-346).
`none` models the `ValueError` that `float` raises on a non-numeric
string.  On numeric input the source computes
`float(value) if value else 0.0`; for `value == 0` the `else` branch
also yields `0.0`, which the embedded `if` mirrors. -/
def cleanCurrency : CellValue → Option ℚ
  | .na => some 0
  | .str v =>
    let c := stripCurrency v
    if c = "" then some 0 else pyFloat c
  | .num v => some (if v ≠ 0 then v else 0)

example : cleanCurrency (.str "$-50") = some (-50) := by with_unfolding_all decide
example : cleanCurrency (.str "  ") = some 0 := by decide
example : cleanCurrency (.str "abc") = none := by decide
example : pyFloat "1.5e2" = some 150 := by with_unfolding_all decide

/-! ## Configuration (config.py / spec §6) -/

/-- Quarterly budget targets for one account executive
(`AEBudget` in src/config.py and `Budget` in src/data_processor.py). -/
structure AEBudget where
  q1 : ℚ
  q2 : ℚ
  q3 : ℚ
  q4 : ℚ
deriving DecidableEq

/-- `getattr(budgets, f"q{q}")` for `q` in 1..4 (the only values the
source ever formats into the attribute name). -/
def AEBudget.q (b : AEBudget) : Nat → ℚ
  | 1 => b.q1
  | 2 => b.q2
  | 3 => b.q3
  | 4 => b.q4
  | _ => 0

/-- One entry of `config.account_executives`: name, enabled flag and
quarterly budgets. -/
structure AEConfig where
  name : String
  enabled : Bool
  budgets : AEBudget

/-- The ordered `account_executives` mapping (a Python dict preserves
insertion order; name uniqueness is a dict invariant stated as a
hypothesis where a claim needs it). -/
abbrev Config := List AEConfig

/-- Modelled from the spec: `Config.active_aes` is absent from
src/config.py (only its callers are in src/); spec §6 says the
authorized allowlist is "derived from the enabled set", so it is the
list of enabled AE names. -/
def activeAEs (cfg : Config) : List String :=
  (cfg.filter (·.enabled)).map (·.name)

/-- `config.account_executives.get(ae_name)`. -/
def lookupAE (cfg : Config) (name : String) : Option AEConfig :=
  cfg.find? (fun ae => ae.name == name)

/-! ## Long-form records and the pivot pipeline (data_processor.py) -/

/-- One melted record of `DataProcessor._create_pivot`
(src/data_processor.py:278-336): the `id_vars` carried along plus the
month column's period (month 1..12, full calendar year) and the cell
amount.  `amt = none` models a NaN produced by the
`errors="coerce"` numeric conversion of `_clean_dataframe`; the
categorical fields are modelled as plain strings (the source's
`fillna` sentinel values are already-substituted string values). -/
structure LongRecord where
  customer : String
  market : String
  revenueClass : String
  ae1 : String
  brokerName : String
  agency : String
  agencyPercent : String
  sector : String
  month : Nat
  year : Nat
  amt : Option ℚ

/-- `df_pivot["Year_Quarter"]`: two-digit year and
`Quarter = dt.quarter = ceil(month/3)`. -/
def yqOf (r : LongRecord) : YQ :=
  (r.year % 100, (r.month + 2) / 3)

/-- `df["Amt"] > 0` in pandas: `False` on NaN, otherwise the numeric
comparison.  The same test also models
`timeframe["Amt"].notna() & (timeframe["Amt"] > 0)`. -/
def amtPos : Option ℚ → Bool
  | none => false
  | some a => decide (0 < a)

/-- `DataProcessor._filter_timeframe` (src/data_processor.py:348-384):
keep records in the current or previous calendar year with positive
amount.  `cy` is `datetime.now().year`. -/
def filterTimeframe (cy : Nat) (l : List LongRecord) : List LongRecord :=
  l.filter (fun r => (r.year == cy || r.year == cy - 1) && amtPos r.amt)

/-- `.str.strip().str.lower()` applied to an AE name. -/
def aeKey (s : String) : String :=
  (String.mk (trimChars s.toList)).toLower

/-- The record filters at the head of `DataProcessor._create_main_report`
(src/data_processor.py:404-416): positive numeric amount, and AE1 in
the active set (case-insensitive, trimmed). -/
def mainReportRecords (cfg : Config) (l : List LongRecord) : List LongRecord :=
  (l.filter (fun r => amtPos r.amt)).filter
    (fun r => (activeAEs cfg).any (fun a => a.toLower == aeKey r.ae1))

/-- One row of the wide pivot report: the `(AE1, Sector, Customer)` key
and the value of every year-quarter column. -/
structure ReportRow where
  ae1 : String
  sector : String
  customer : String
  val : YQ → ℚ

/-- The wide pivot table handed to the renderer and the analytics. -/
structure PivotReport where
  cols : List YQ
  rows : List ReportRow

/-- The 8 expected year-quarter columns, in the sorted order the source
produces (src/data_processor.py:443-456): for consecutive two-digit
years `previous_year = str(int(current_year) - 1)` the string sort of
the labels lists the 4 previous-year quarters before the 4
current-year ones. -/
def expectedQuarters (cy : Nat) : List YQ :=
  [(cy % 100 - 1, 1), (cy % 100 - 1, 2), (cy % 100 - 1, 3), (cy % 100 - 1, 4),
   (cy % 100, 1), (cy % 100, 2), (cy % 100, 3), (cy % 100, 4)]

/-- The groupby-sum of `_create_main_report`: total amount of the
filtered records with the given `(AE1, Sector, Customer)` key in the
given year-quarter. -/
def groupSum (l : List LongRecord) (k : String × String × String) (yq : YQ) : ℚ :=
  ((l.filter (fun r =>
      decide ((r.ae1, r.sector, r.customer) = k) && decide (yqOf r = yq))).map
    (fun r => r.amt.getD 0)).sum

/-- Row ordering used by `report.sort_values(["AE1", "Sector", "Customer"])`. -/
def rowLe (a b : ReportRow) : Bool :=
  decide (a.ae1 < b.ae1) ||
    (a.ae1 == b.ae1 && (decide (a.sector < b.sector) ||
      (a.sector == b.sector && !decide (b.customer < a.customer))))

/-- `DataProcessor._create_main_report` (src/data_processor.py:386-461):
filter, group by `(AE1, Sector, Customer, Year_Quarter)` with summed
amounts, pivot year-quarter into columns with `fill_value=0`, create
any of the 8 expected columns that are absent with value 0, reindex to
exactly those columns (dropping any other label) and sort rows.
A row's value outside the reindexed columns is 0, matching the
`fill_value`/`reindex` semantics. -/
def createMainReport (cfg : Config) (cy : Nat) (l : List LongRecord) : PivotReport :=
  let recs := mainReportRecords cfg l
  let keys := (recs.map (fun r => (r.ae1, r.sector, r.customer))).dedup
  { cols := expectedQuarters cy
    rows := (keys.map (fun k =>
      { ae1 := k.1
        sector := k.2.1
        customer := k.2.2
        val := fun yq => if yq ∈ expectedQuarters cy then groupSum recs k yq else 0
        : ReportRow })).mergeSort rowLe }

/-- The full reshaping pipeline from melted records to the pivot
report (`_filter_timeframe` then `_create_main_report`, as called by
`DataProcessor.process_data`). -/
def pipelineReport (cfg : Config) (cy : Nat) (l : List LongRecord) : PivotReport :=
  createMainReport cfg cy (filterTimeframe cy l)

/-! ## Budget reconciliation (DataProcessor._create_budget_report) -/

/-- The distinguished unassigned sector sentinel. -/
def UNASSIGNED : String := "AAA - UNASSIGNED"

/-- `self.quarter_columns`: the 4 current-year quarter columns
(`[f"{year}Q{i}" for i in range(1, 5)]`). -/
def quarterCols (cy : Nat) : List YQ :=
  [1, 2, 3, 4].map (fun q => (cy % 100, q))

/-- `main_report[main_report["AE1"] == ae_name]` (exact string match). -/
def aeRows (rep : PivotReport) (name : String) : List ReportRow :=
  rep.rows.filter (fun r => r.ae1 == name)

/-- `ae_data[ae_data["Sector"] == "AAA - UNASSIGNED"]`. -/
def unassRows (rep : PivotReport) (name : String) : List ReportRow :=
  (aeRows rep name).filter (fun r => r.sector == UNASSIGNED)

/-- `total_revenue = ae_data[qtr].sum()`. -/
def totalVal (rep : PivotReport) (name : String) (yq : YQ) : ℚ :=
  ((aeRows rep name).map (fun r => r.val yq)).sum

/-- `unassigned_data[qtr].sum()`. -/
def unassVal (rep : PivotReport) (name : String) (yq : YQ) : ℚ :=
  ((unassRows rep name).map (fun r => r.val yq)).sum

/-- `assigned_row[qtr] = total_revenue - unassigned_revenue`, where
`unassigned_revenue` is `unassigned_data[qtr].sum() if not
unassigned_data.empty else 0` (src/data_processor.py:512-519). -/
def assignedVal (rep : PivotReport) (name : String) (yq : YQ) : ℚ :=
  totalVal rep name yq -
    (if (unassRows rep name).isEmpty then 0 else unassVal rep name yq)

/-- One row of the reconciled Budget-Assigned-Unassigned sheet, with the
`Total` column (`report[quarter_columns].sum(axis=1)`). -/
structure BudgetRow where
  ae1 : String
  sector : String
  customer : String
  val : YQ → ℚ
  total : ℚ

/-- Build a budget-sheet row: values exist exactly on the current-year
quarter columns (the frame is reindexed to
`["AE1","Sector","Customer"] + quarter_columns + ["Total"]`), and
`Total` sums the quarter columns. -/
def mkBudgetRow (cy : Nat) (name sector customer : String) (v : Nat → ℚ) : BudgetRow :=
  { ae1 := name
    sector := sector
    customer := customer
    val := fun yq => if yq ∈ quarterCols cy then v yq.2 else 0
    total := ([1, 2, 3, 4].map v).sum }

/-- Row ordering of `report.sort_values(["AE1", "Sector"])`. -/
def budgetRowLe (a b : BudgetRow) : Bool :=
  decide (a.ae1 < b.ae1) || (a.ae1 == b.ae1 && !decide (b.sector < a.sector))

/-- `DataProcessor._create_budget_report` (src/data_processor.py:463-542):
per enabled AE one Budget row (configured targets), one Assigned row
(total minus unassigned, as a residual) and, only when the AE has at
least one unassigned-sector pivot row, one Unassigned/"New Accounts"
row; rows concatenated in the source's order and finally sorted by
(AE1, Sector). -/
def budgetReport (cfg : Config) (cy : Nat) (rep : PivotReport) : List BudgetRow :=
  let enabled := cfg.filter (·.enabled)
  let budgetRows := enabled.map (fun ae =>
    mkBudgetRow cy ae.name "Budget" "Budget" ae.budgets.q)
  let assignedRows := enabled.map (fun ae =>
    mkBudgetRow cy ae.name "Assigned" ""
      (fun q => assignedVal rep ae.name (cy % 100, q)))
  let unassignedRows := (enabled.filter
      (fun ae => !(unassRows rep ae.name).isEmpty)).map (fun ae =>
    mkBudgetRow cy ae.name UNASSIGNED "New Accounts"
      (fun q => unassVal rep ae.name (cy % 100, q)))
  (budgetRows ++ assignedRows ++ unassignedRows).mergeSort budgetRowLe

/-! ## Analytics engine (sales_analytics.py) -/

/-- The current-year quarter label `f"{current_year}Q{q}"`, with
`current_year = str(datetime.now().year)[2:]`. -/
def curLabel (cy q : Nat) : YQ := (cy % 100, q)

/-- The previous-year quarter label, with
`previous_year = str(int(current_year) - 1)`. -/
def prevLabel (cy q : Nat) : YQ := (cy % 100 - 1, q)

/-- `sales_data_df[sales_data_df.AE1 == ae_name]`. -/
def aeData (df : List ReportRow) (name : String) : List ReportRow :=
  df.filter (fun r => r.ae1 == name)

/-- `df[df["Sector"] != "AAA - UNASSIGNED"]`. -/
def assignedData (df : List ReportRow) : List ReportRow :=
  df.filter (fun r => r.sector != UNASSIGNED)

/-- `df[df["Sector"] == "AAA - UNASSIGNED"]`. -/
def unassignedData (df : List ReportRow) : List ReportRow :=
  df.filter (fun r => r.sector == UNASSIGNED)

/-- `rows[(rows["Sector"] ==/!= "AAA - UNASSIGNED") & (rows[col] > 0)][col].sum()`
— the quarterly revenue sums of `calculate_sales_stats`
(src/sales_analytics.py:117-137); `unassigned` selects which sector
test is used. -/
def sectorSum (rows : List ReportRow) (unassigned : Bool) (yq : YQ) : ℚ :=
  ((rows.filter (fun r =>
      (r.sector == UNASSIGNED) == unassigned && decide (0 < r.val yq))).map
    (fun r => r.val yq)).sum

/-- `df[col].sum()` over a whole frame slice (no positivity filter) —
used by the company-wide paths. -/
def colSum (rows : List ReportRow) (yq : YQ) : ℚ :=
  (rows.map (fun r => r.val yq)).sum

/-- `len(rows[rows[labels].sum(axis=1) > 0]["Customer"].unique())`. -/
def activeCustomers (rows : List ReportRow) (labels : List YQ) : Nat :=
  (((rows.filter (fun r => decide (0 < (labels.map (fun yq => r.val yq)).sum))).map
    (fun r => r.customer)).dedup).length

/-- Python `round()` to the nearest integer, ties to even. -/
def pyRound (x : ℚ) : Int :=
  let f : Int := Int.fdiv x.num (x.den : Int)
  let r : ℚ := x - (f : ℚ)
  if r < 1 / 2 then f
  else if 1 / 2 < r then f + 1
  else if f % 2 = 0 then f else f + 1

/-- The `QuarterData` dataclass of src/email_template_renderer.py
(`name` carried as the quarter number). -/
structure QuarterData where
  q : Nat
  assigned : ℚ
  unassigned : ℚ
  budget : ℚ
  completionPercentage : ℚ
  previousYearAssigned : ℚ
  previousYearUnassigned : ℚ
  yearOverYearChange : ℚ

/-- The per-quarter body of `SalesAnalytics.calculate_sales_stats`
(src/sales_analytics.py:112-178): revenue sums, guarded completion
percentage and guarded year-over-year change for quarter `q`. -/
def calcQuarterData (b : AEBudget) (df : List ReportRow) (name : String)
    (cy q : Nat) : QuarterData :=
  let rows := aeData df name
  let assigned := sectorSum rows false (curLabel cy q)
  let unassigned := sectorSum rows true (curLabel cy q)
  let prevAssigned := sectorSum rows false (prevLabel cy q)
  let prevUnassigned := sectorSum rows true (prevLabel cy q)
  let budget := b.q q
  { q := q
    assigned := assigned
    unassigned := unassigned
    budget := budget
    completionPercentage := if 0 < budget then assigned / budget * 100 else 0
    previousYearAssigned := prevAssigned
    previousYearUnassigned := prevUnassigned
    yearOverYearChange :=
      if 0 < prevAssigned then (assigned - prevAssigned) / prevAssigned * 100 else 0 }

/-- The `SalesStats` dataclass of src/email_template_renderer.py. -/
structure SalesStats where
  totalCustomers : Nat
  totalAssignedRevenue : ℚ
  totalUnassignedRevenue : ℚ
  quarterlyTotals : List (YQ × ℚ)
  avgPerCustomer : ℚ
  unassignedTotals : List (YQ × ℚ)
  quarterlyData : List QuarterData
  previousYearCustomers : Nat
  totalPreviousYearRevenue : ℚ
  totalYearOverYearChange : ℚ

/-- Body of `SalesAnalytics.calculate_sales_stats`
(src/sales_analytics.py:85-223) after the enabled-AE guard: the running
totals accumulated in the quarter loop are the sums over the four
`QuarterData` values. -/
def calcSalesStatsCore (b : AEBudget) (df : List ReportRow) (name : String)
    (cy : Nat) : SalesStats :=
  let qd := [1, 2, 3, 4].map (fun q => calcQuarterData b df name cy q)
  let totalAssigned := (qd.map (fun d => d.assigned)).sum
  let totalUnassigned := (qd.map (fun d => d.unassigned)).sum
  let totalPrev := (qd.map (fun d => d.previousYearAssigned)).sum
  let rows := aeData df name
  let curCustomers := activeCustomers (assignedData rows) ([1, 2, 3, 4].map (curLabel cy))
  let prevCustomers := activeCustomers (assignedData rows) ([1, 2, 3, 4].map (prevLabel cy))
  { totalCustomers := curCustomers
    totalAssignedRevenue := totalAssigned
    totalUnassignedRevenue := totalUnassigned
    quarterlyTotals := qd.map (fun d => (curLabel cy d.q, d.assigned))
    avgPerCustomer := if 0 < curCustomers then totalAssigned / (curCustomers : ℚ) else 0
    unassignedTotals := qd.map (fun d => (curLabel cy d.q, d.unassigned))
    quarterlyData := qd
    previousYearCustomers := prevCustomers
    totalPreviousYearRevenue := totalPrev
    totalYearOverYearChange :=
      if 0 < totalPrev then (totalAssigned - totalPrev) / totalPrev * 100 else 0 }

/-- `SalesAnalytics.calculate_sales_stats` including its guard: raises
(`none`) when the AE is missing or disabled. -/
def calcSalesStats (cfg : Config) (df : List ReportRow) (name : String)
    (cy : Nat) : Option SalesStats :=
  match lookupAE cfg name with
  | some ae => if ae.enabled then some (calcSalesStatsCore ae.budgets df name cy) else none
  | none => none

/-- Company budget for one quarter: the sum over enabled AEs of the
configured target (src/sales_analytics.py:275-279). -/
def companyBudgetQ (cfg : Config) (q : Nat) : ℚ :=
  ((cfg.filter (·.enabled)).map (fun ae => ae.budgets.q q)).sum

/-- One company quarter dict of
`SalesAnalytics.calculate_company_quarterly_data`
(src/sales_analytics.py:228-312): `completion_percentage` is
`round(...)`; `year_over_year_change` is `float("inf")` when the
prior-year assigned revenue is not positive. -/
structure CompanyQuarter where
  q : Nat
  assigned : ℚ
  unassigned : ℚ
  budget : ℚ
  completionPercentage : Int
  previousYearAssigned : ℚ
  yearOverYearChange : RVal

def companyQuarter (cfg : Config) (df : List ReportRow) (cy q : Nat) : CompanyQuarter :=
  let assigned := colSum (assignedData df) (curLabel cy q)
  let unassigned := colSum (unassignedData df) (curLabel cy q)
  let prevAssigned := colSum (assignedData df) (prevLabel cy q)
  let budget := companyBudgetQ cfg q
  { q := q
    assigned := assigned
    unassigned := unassigned
    budget := budget
    completionPercentage := pyRound (if 0 < budget then assigned / budget * 100 else 0)
    previousYearAssigned := prevAssigned
    yearOverYearChange :=
      if 0 < prevAssigned then .fin ((assigned - prevAssigned) / prevAssigned * 100)
      else .inf }

def companyQuarterlyData (cfg : Config) (df : List ReportRow) (cy : Nat) :
    List CompanyQuarter :=
  [1, 2, 3, 4].map (fun q => companyQuarter cfg df cy q)

/-- The `ManagementStats` dataclass; `aeData` keeps, per enabled AE,
the `SalesStats` the entry of `calculate_management_stats` is built
from (the entry's numeric fields are all read off that object). -/
structure ManagementStats where
  totalRevenue : ℚ
  totalUnassignedRevenue : ℚ
  totalCustomers : Nat
  aeData : List (String × SalesStats)
  totalPreviousYearRevenue : ℚ
  totalPreviousYearUnassigned : ℚ
  totalYearOverYearChange : RVal
  previousYearCustomers : Nat
  companyQuarters : List CompanyQuarter
  companyTotalBudget : ℚ
  companyCompletionPercentage : Int

/-- `SalesAnalytics.calculate_management_stats`
(src/sales_analytics.py:317-505).  Company totals are the full-frame
column sums over the sector split (`assigned_data[quarters].sum().sum()`
— no positivity filter and no AE filter); the AE entries are computed
per enabled AE via `calculate_sales_stats` and sorted by total revenue
descending. -/
def managementStats (cfg : Config) (df : List ReportRow) (cy : Nat) : ManagementStats :=
  let curQs := [1, 2, 3, 4].map (curLabel cy)
  let prevQs := [1, 2, 3, 4].map (prevLabel cy)
  let totalRevenue := (curQs.map (fun yq => colSum (assignedData df) yq)).sum
  let totalPrev := (prevQs.map (fun yq => colSum (assignedData df) yq)).sum
  let companyTotalBudget :=
    ((cfg.filter (·.enabled)).map (fun ae => ([1, 2, 3, 4].map ae.budgets.q).sum)).sum
  let aeEntries := (cfg.filter (·.enabled)).map
    (fun ae => (ae.name, calcSalesStatsCore ae.budgets df ae.name cy))
  { totalRevenue := totalRevenue
    totalUnassignedRevenue := (curQs.map (fun yq => colSum (unassignedData df) yq)).sum
    totalCustomers := activeCustomers (assignedData df) curQs
    aeData := aeEntries.mergeSort
      (fun a b => decide (b.2.totalAssignedRevenue ≤ a.2.totalAssignedRevenue))
    totalPreviousYearRevenue := totalPrev
    totalPreviousYearUnassigned := (prevQs.map (fun yq => colSum (unassignedData df) yq)).sum
    totalYearOverYearChange :=
      if 0 < totalPrev then .fin ((totalRevenue - totalPrev) / totalPrev * 100)
      else .inf
    previousYearCustomers := activeCustomers (assignedData df) prevQs
    companyQuarters := companyQuarterlyData cfg df cy
    companyTotalBudget := companyTotalBudget
    companyCompletionPercentage :=
      pyRound (if 0 < companyTotalBudget then totalRevenue / companyTotalBudget * 100 else 0) }

/-! ## Direct year-over-year calculation
(`DataProcessor.calculate_direct_yoy_change`, src/data_processor.py:101-168)

This runs inside `process_data` on the raw, unfiltered frame — before
`_filter_timeframe` — and sums whole monthly columns with no
positivity filter. -/

/-- One raw spreadsheet row: the cell of monthly column `<m>/1/<y>`. -/
structure RawRow where
  cell : Nat → Nat → CellValue

/-- One cell under
`df[col].replace('[$,]', '', regex=True).astype(float)` followed by the
column `.sum()`: '$' and ',' characters are removed before `float`
parsing; `none` models the `astype` error on a non-numeric string; NaN
contributes 0 to a pandas column sum. -/
def directCellNum : CellValue → Option ℚ
  | .na => some 0
  | .num x => some x
  | .str s =>
    pyFloat (String.mk (trimChars (s.toList.filter (fun c => c != '$' && c != ','))))

/-- `df[col].sum()` for the monthly column `<m>/1/<y>` after the
currency conversion. -/
def directColSum (rows : List RawRow) (m y : Nat) : Option ℚ :=
  (rows.mapM (fun r => directCellNum (r.cell m y))).map (fun xs => xs.sum)

/-- Result dict of `calculate_direct_yoy_change`. -/
structure DirectYoY where
  previousYearTotal : ℚ
  currentYearTotal : ℚ
  yoyChange : RVal

/-- `calculate_direct_yoy_change(df, year1, year2, start_month, end_month)`:
sum the monthly columns `start_month..end_month` of each year and form
the year-over-year change, `float("inf")` when the previous-year total
is not positive.  (The source skips columns absent from the frame; the
row model makes every monthly column present, as in the real input.) -/
def directYoYChange (rows : List RawRow) (y1 y2 sm em : Nat) : Option DirectYoY :=
  let months := List.range' sm (em + 1 - sm)
  do
    let t1 ← months.mapM (fun m => directColSum rows m y1)
    let t2 ← months.mapM (fun m => directColSum rows m y2)
    let y1total := t1.sum
    let y2total := t2.sum
    some
      { previousYearTotal := y1total
        currentYearTotal := y2total
        yoyChange :=
          if 0 < y1total then .fin ((y2total - y1total) / y1total * 100)
          else .inf }

/-! ## Report saving (`DataProcessor.save_report`, src/data_processor.py:544-652) -/

/-- State of one salesperson's spreadsheet on disk. -/
inductive FileState where
  | incomplete
  | done
deriving DecidableEq

/-- The reports directory: which file (by salesperson, the variable
part of the timestamped filename) is present, and whether it is fully
written. -/
def Disk := String → Option FileState

/-- Point update of the reports directory. -/
def diskSet (d : Disk) (k : String) (v : Option FileState) : Disk :=
  fun s => if s = k then v else d s

/-- Outcome of `save_report`: the final directory state and the
returned `files_created` list, or — when the `except` handler re-raises
— the directory state and the salesperson whose write failed. -/
inductive SaveResult where
  | ok : Disk → List String → SaveResult
  | err : Disk → String → SaveResult

/-- The `for sales_person in report["AE1"].unique()` loop of
`save_report`: opening the `ExcelWriter` creates the file
(incomplete); `writeOk` says whether writing and closing the workbook
for that salesperson succeeds; on success the file is complete and the
path is appended to `files_created`; on failure the handler removes
the partially written file and re-raises. -/
def saveReportLoop (writeOk : String → Bool) :
    List String → Disk → List String → SaveResult
  | [], disk, files => .ok disk files
  | sp :: rest, disk, files =>
    let opened := diskSet disk sp (some .incomplete)
    if writeOk sp then
      saveReportLoop writeOk rest (diskSet opened sp (some .done)) (files ++ [sp])
    else
      .err (diskSet opened sp none) sp

/-- `DataProcessor.save_report` on the distinct salespeople of the
report, starting from an empty reports directory and an empty
`files_created` list. -/
def saveReport (writeOk : String → Bool) (sps : List String) : SaveResult :=
  saveReportLoop writeOk sps (fun _ => none) []

/-! ## Shared helper lemmas -/

lemma pyRound_zero : pyRound 0 = 0 := by with_unfolding_all decide

/-- Dropping a `> 0` filter under a sum changes nothing when all
values are nonnegative: the dropped elements contribute 0. -/
lemma sum_filter_pos {α : Type} (l : List α) (p : α → Bool) (f : α → ℚ)
    (h : ∀ x ∈ l, 0 ≤ f x) :
    ((l.filter (fun x => p x && decide (0 < f x))).map f).sum
      = ((l.filter p).map f).sum := by
  induction l with
  | nil => rfl
  | cons a l ih =>
    have ha := h a (List.mem_cons_self a l)
    have ih' := ih (fun x hx => h x (List.mem_cons_of_mem a hx))
    by_cases hp : p a = true
    · by_cases hpos : 0 < f a
      · simp [List.filter_cons, hp, hpos, ih']
      · have hz : f a = 0 := le_antisymm (not_lt.mp hpos) ha
        simp [List.filter_cons, hp, hpos, ih', hz]
    · simp [List.filter_cons, hp, ih']

/-- Summing `if a = n then c + t n else t n` over a duplicate-free list
containing `a` adds `c` exactly once. -/
lemma sum_if_mem (names : List String) (a : String) (c : ℚ) (t : String → ℚ)
    (hnd : names.Nodup) (ha : a ∈ names) :
    (names.map (fun n => if a = n then c + t n else t n)).sum
      = c + (names.map t).sum := by
  induction names with
  | nil => cases ha
  | cons n names ih =>
    rcases List.mem_cons.mp ha with h | h
    · subst h
      have hnot : a ∉ names := (List.nodup_cons.mp hnd).1
      have hrw : names.map (fun n => if a = n then c + t n else t n) = names.map t := by
        apply List.map_congr_left
        intro n hn
        exact if_neg (fun hc => hnot (by rw [hc]; exact hn))
      simp [hrw, add_assoc]
    · have hne : a ≠ n := fun hc => (List.nodup_cons.mp hnd).1 (hc ▸ h)
      have ih' := ih (List.nodup_cons.mp hnd).2 h
      simp [hne, ih']
      ring

/-- Partitioning a filtered sum by a key whose values all lie in a
duplicate-free name list: summing the per-name restrictions equals the
unrestricted sum. -/
lemma sum_partition {α : Type} (names : List String) (l : List α)
    (key : α → String) (p : α → Bool) (f : α → ℚ) (hnd : names.Nodup)
    (hmem : ∀ x ∈ l, key x ∈ names) :
    (names.map (fun n => ((l.filter (fun x => key x == n && p x)).map f).sum)).sum
      = ((l.filter p).map f).sum := by
  induction l with
  | nil => simp
  | cons a l ih =>
    have ih' := ih (fun x hx => hmem x (List.mem_cons_of_mem a hx))
    by_cases hp : p a = true
    · have hka : key a ∈ names := hmem a (List.mem_cons_self a l)
      have hstep : ∀ n ∈ names,
          ((List.filter (fun x => key x == n && p x) (a :: l)).map f).sum
            = if key a = n
              then f a + ((l.filter (fun x => key x == n && p x)).map f).sum
              else ((l.filter (fun x => key x == n && p x)).map f).sum := by
        intro n _
        by_cases hk : key a = n
        · simp [List.filter_cons, hk, hp]
        · simp [List.filter_cons, hk, hp]
      rw [List.map_congr_left hstep,
        sum_if_mem names (key a) (f a)
          (fun n => ((l.filter (fun x => key x == n && p x)).map f).sum) hnd hka,
        ih']
      simp [List.filter_cons, hp]
    · have hstep : ∀ n ∈ names,
          ((List.filter (fun x => key x == n && p x) (a :: l)).map f).sum
            = ((l.filter (fun x => key x == n && p x)).map f).sum := by
        intro n _
        simp [List.filter_cons, hp]
      rw [List.map_congr_left hstep, ih']
      simp [List.filter_cons, hp]

/-! ## Claim C2 -/

/-- Per-quarter rollup agreement: when every row's `AE1` is the exact
name of an enabled AE (with names duplicate-free) and the quarter
values are nonnegative, the sum over enabled AEs of the
per-salesperson assigned-revenue sum equals the company-wide column
sum over non-unassigned rows. -/
lemma quarter_rollup (cfg : Config) (df : List ReportRow) (yq : YQ)
    (hnd : ((cfg.filter (·.enabled)).map (·.name)).Nodup)
    (hae : ∀ r ∈ df, r.ae1 ∈ (cfg.filter (·.enabled)).map (·.name))
    (hpos : ∀ r ∈ df, 0 ≤ r.val yq) :
    ((cfg.filter (·.enabled)).map
        (fun ae => sectorSum (aeData df ae.name) false yq)).sum
      = colSum (assignedData df) yq := by
  have hone : ∀ name : String, sectorSum (aeData df name) false yq
      = ((df.filter (fun r => r.ae1 == name && (r.sector != UNASSIGNED))).map
          (fun r => r.val yq)).sum := by
    intro name
    unfold sectorSum
    rw [sum_filter_pos (aeData df name)
      (fun r => (r.sector == UNASSIGNED) == false) (fun r => r.val yq)
      (fun r hr => hpos r (List.mem_filter.mp hr).1)]
    unfold aeData
    rw [List.filter_filter]
    have hfc : df.filter (fun a => ((a.sector == UNASSIGNED) == false) && (a.ae1 == name))
        = df.filter (fun r => r.ae1 == name && (r.sector != UNASSIGNED)) := by
      apply List.filter_congr
      intro x _
      cases hx : x.sector == UNASSIGNED <;> cases hy : x.ae1 == name <;>
        simp [bne, hx, hy]
    rw [hfc]
  rw [List.map_congr_left (fun ae _ => hone ae.name)]
  have hmm : (cfg.filter (·.enabled)).map
        (fun ae => ((df.filter
          (fun r => r.ae1 == ae.name && (r.sector != UNASSIGNED))).map
            (fun r => r.val yq)).sum)
      = ((cfg.filter (·.enabled)).map (·.name)).map
        (fun n => ((df.filter
          (fun r => r.ae1 == n && (r.sector != UNASSIGNED))).map
            (fun r => r.val yq)).sum) := by
    rw [List.map_map]
    rfl
  rw [hmm]
  exact sum_partition ((cfg.filter (·.enabled)).map (·.name)) df (fun r => r.ae1)
    (fun r => r.sector != UNASSIGNED) (fun r => r.val yq) hnd hae

/-- C2 counterexample: the company-wide pass sums every
non-unassigned row of the frame regardless of its `AE1`, while the
per-salesperson pass only counts rows whose `AE1` exactly equals an
enabled name — a row attributed to "Bob" (not in the configuration)
makes the two paths differ (100 vs 0). -/
theorem c2_counterexample :
    (managementStats [⟨"Alice", true, ⟨0, 0, 0, 0⟩⟩]
        [⟨"Bob", "Tech", "CustA", fun yq => if yq == ((25, 1) : YQ) then 100 else 0⟩]
        2025).totalRevenue
      ≠ (([(⟨"Alice", true, ⟨0, 0, 0, 0⟩⟩ : AEConfig)].filter (·.enabled)).map
          (fun ae => (calcSalesStatsCore ae.budgets
            [⟨"Bob", "Tech", "CustA", fun yq => if yq == ((25, 1) : YQ) then 100 else 0⟩]
            ae.name 2025).totalAssignedRevenue)).sum := by
  with_unfolding_all decide

/-- C2 amended: the two computation paths agree for every frame whose
rows each carry the exact name of an enabled salesperson
(configuration names being unique, as for a Python dict) and whose
current-year quarter values are nonnegative — in particular for the
pivot output when AE names match the configuration exactly.  (Without
these conditions they differ: rows whose `AE1` is not an exact enabled
name — e.g. unauthorized or differently-cased entries — are counted by
the company pass only, and negative values are counted by the company
pass only; see the counterexample.) -/
theorem c2_rollup_consistency (cfg : Config) (df : List ReportRow) (cy : Nat)
    (hnd : ((cfg.filter (·.enabled)).map (·.name)).Nodup)
    (hae : ∀ r ∈ df, r.ae1 ∈ (cfg.filter (·.enabled)).map (·.name))
    (hpos : ∀ r ∈ df, ∀ q ∈ ([1, 2, 3, 4] : List Nat), 0 ≤ r.val (curLabel cy q)) :
    (managementStats cfg df cy).totalRevenue
      = ((cfg.filter (·.enabled)).map
          (fun ae => (calcSalesStatsCore ae.budgets df ae.name cy).totalAssignedRevenue)).sum := by
  have h1 := quarter_rollup cfg df (curLabel cy 1) hnd hae
    (fun r hr => hpos r hr 1 (by decide))
  have h2 := quarter_rollup cfg df (curLabel cy 2) hnd hae
    (fun r hr => hpos r hr 2 (by decide))
  have h3 := quarter_rollup cfg df (curLabel cy 3) hnd hae
    (fun r hr => hpos r hr 3 (by decide))
  have h4 := quarter_rollup cfg df (curLabel cy 4) hnd hae
    (fun r hr => hpos r hr 4 (by decide))
  have hR : ∀ ae : AEConfig,
      (calcSalesStatsCore ae.budgets df ae.name cy).totalAssignedRevenue
        = sectorSum (aeData df ae.name) false (curLabel cy 1)
          + (sectorSum (aeData df ae.name) false (curLabel cy 2)
          + (sectorSum (aeData df ae.name) false (curLabel cy 3)
          + sectorSum (aeData df ae.name) false (curLabel cy 4))) := by
    intro ae
    simp [calcSalesStatsCore, calcQuarterData]
  have hL : (managementStats cfg df cy).totalRevenue
      = colSum (assignedData df) (curLabel cy 1)
        + (colSum (assignedData df) (curLabel cy 2)
        + (colSum (assignedData df) (curLabel cy 3)
        + colSum (assignedData df) (curLabel cy 4))) := by
    simp [managementStats]
  rw [hL, List.map_congr_left (fun ae _ => hR ae)]
  simp only [List.sum_map_add]
  rw [h1, h2, h3, h4]

/-- Witness for C2's amended statement: one enabled AE, one matching
data row with a nonnegative current-quarter value. -/
theorem c2_rollup_consistency_witness :
    ((([(⟨"Alice", true, ⟨0, 0, 0, 0⟩⟩ : AEConfig)].filter (·.enabled)).map (·.name)).Nodup
      ∧ (∀ r ∈ [(⟨"Alice", "Tech", "CustA",
            fun yq => if yq == ((25, 1) : YQ) then 100 else 0⟩ : ReportRow)],
          r.ae1 ∈ (([(⟨"Alice", true, ⟨0, 0, 0, 0⟩⟩ : AEConfig)].filter (·.enabled)).map (·.name))))
    ∧ (managementStats [⟨"Alice", true, ⟨0, 0, 0, 0⟩⟩]
        [⟨"Alice", "Tech", "CustA", fun yq => if yq == ((25, 1) : YQ) then 100 else 0⟩]
        2025).totalRevenue
      = (([(⟨"Alice", true, ⟨0, 0, 0, 0⟩⟩ : AEConfig)].filter (·.enabled)).map
          (fun ae => (calcSalesStatsCore ae.budgets
            [⟨"Alice", "Tech", "CustA", fun yq => if yq == ((25, 1) : YQ) then 100 else 0⟩]
            ae.name 2025).totalAssignedRevenue)).sum :=
  ⟨⟨by simp, by
      intro r hr
      rcases List.mem_singleton.mp hr with rfl
      simp⟩,
    c2_rollup_consistency [⟨"Alice", true, ⟨0, 0, 0, 0⟩⟩]
      [⟨"Alice", "Tech", "CustA", fun yq => if yq == ((25, 1) : YQ) then 100 else 0⟩]
      2025 (by simp)
      (by
        intro r hr
        rcases List.mem_singleton.mp hr with rfl
        simp)
      (by
        intro r hr q hq
        rcases List.mem_singleton.mp hr with rfl
        dsimp only
        split <;> norm_num)⟩

/-! ## Claim C10 -/

/-- Loop invariant for `saveReport`: starting from a directory with no
incomplete file, a successful pass returns exactly the processed
paths, all complete, and leaves no incomplete file; a failing pass
leaves no incomplete file and no file at all for the salesperson whose
write failed. -/
lemma saveReportLoop_spec (w : String → Bool) :
    ∀ (sps : List String) (disk : Disk) (files : List String),
      (∀ s, disk s ≠ some FileState.incomplete) →
      ((∀ d fs, saveReportLoop w sps disk files = .ok d fs →
          fs = files ++ sps ∧ (∀ sp ∈ sps, d sp = some FileState.done)
          ∧ (∀ s, d s ≠ some FileState.incomplete)
          ∧ (∀ s, s ∉ sps → d s = disk s))
       ∧ (∀ d sp, saveReportLoop w sps disk files = .err d sp →
          sp ∈ sps ∧ d sp = none ∧ (∀ s, d s ≠ some FileState.incomplete))) := by
  intro sps
  induction sps with
  | nil =>
    intro disk files hdisk
    constructor
    · intro d fs h
      simp only [saveReportLoop] at h
      cases h
      exact ⟨by simp, by simp, hdisk, fun s _ => rfl⟩
    · intro d sp h
      simp only [saveReportLoop] at h
      cases h
  | cons sp rest ih =>
    intro disk files hdisk
    by_cases hw : w sp = true
    · have hstep : saveReportLoop w (sp :: rest) disk files
          = saveReportLoop w rest
              (diskSet (diskSet disk sp (some .incomplete)) sp (some .done))
              (files ++ [sp]) := by
        simp [saveReportLoop, hw]
      have hdisk' : ∀ s,
          (diskSet (diskSet disk sp (some .incomplete)) sp (some .done)) s
            ≠ some FileState.incomplete := by
        intro s
        by_cases hs : s = sp
        · simp [diskSet, hs]
        · simpa [diskSet, hs] using hdisk s
      have hih := ih (diskSet (diskSet disk sp (some .incomplete)) sp (some .done))
        (files ++ [sp]) hdisk'
      constructor
      · intro d fs h
        rw [hstep] at h
        obtain ⟨h1, h2, h3, h4⟩ := hih.1 d fs h
        refine ⟨by simpa using h1, ?_, h3, ?_⟩
        · intro sp' hsp'
          rcases List.mem_cons.mp hsp' with hsp' | hsp'
          · subst hsp'
            by_cases hin : sp' ∈ rest
            · exact h2 sp' hin
            · rw [h4 sp' hin]
              simp [diskSet]
          · exact h2 sp' hsp'
        · intro s hs
          have hs1 : s ≠ sp := fun hc => hs (hc ▸ List.mem_cons_self sp rest)
          have hs2 : s ∉ rest := fun hc => hs (List.mem_cons_of_mem sp hc)
          rw [h4 s hs2]
          simp [diskSet, hs1]
      · intro d spf h
        rw [hstep] at h
        obtain ⟨h1, h2, h3⟩ := hih.2 d spf h
        exact ⟨List.mem_cons_of_mem sp h1, h2, h3⟩
    · have hstep : saveReportLoop w (sp :: rest) disk files
          = .err (diskSet (diskSet disk sp (some .incomplete)) sp none) sp := by
        simp [saveReportLoop, hw]
      constructor
      · intro d fs h
        rw [hstep] at h
        cases h
      · intro d spf h
        rw [hstep] at h
        cases h
        refine ⟨List.mem_cons_self sp rest, by simp [diskSet], ?_⟩
        intro s
        by_cases hs : s = sp
        · simp [diskSet, hs]
        · simpa [diskSet, hs] using hdisk s

/-- C10: report saving is atomic per output file — after `save_report`
either the run succeeded and every salesperson's file is fully written
and listed in the returned `files_created`, or the run failed on some
salesperson and that salesperson's partially written file has been
deleted before the error propagated; in no outcome does a partially
written file remain on disk. -/
theorem c10_save_report_atomic (w : String → Bool) (sps : List String) :
    (∀ d fs, saveReport w sps = .ok d fs →
        fs = sps ∧ (∀ sp ∈ sps, d sp = some FileState.done)
        ∧ ∀ s, d s ≠ some FileState.incomplete)
    ∧ (∀ d sp, saveReport w sps = .err d sp →
        d sp = none ∧ ∀ s, d s ≠ some FileState.incomplete) := by
  have h := saveReportLoop_spec w sps (fun _ => none) [] (fun s => by simp)
  constructor
  · intro d fs hok
    obtain ⟨h1, h2, h3, _⟩ := h.1 d fs hok
    exact ⟨by simpa using h1, h2, h3⟩
  · intro d sp herr
    obtain ⟨_, h2, h3⟩ := h.2 d sp herr
    exact ⟨h2, h3⟩

/-- Witness for C10: a run whose only salesperson's write fails leaves
no file for them on disk. -/
theorem c10_save_report_atomic_witness :
    (saveReport (fun _ => false) ["Bob"]
      = .err (diskSet (diskSet (fun _ => none) "Bob" (some FileState.incomplete))
          "Bob" none) "Bob")
    ∧ (diskSet (diskSet (fun _ => none) "Bob" (some FileState.incomplete))
        "Bob" none) "Bob" = none
    ∧ (diskSet (diskSet (fun _ => none) "Bob" (some FileState.incomplete))
        "Bob" none) "Alice" ≠ some FileState.incomplete := by
  have h := (c10_save_report_atomic (fun _ => false) ["Bob"]).2
    (diskSet (diskSet (fun _ => none) "Bob" (some FileState.incomplete)) "Bob" none)
    "Bob" rfl
  exact ⟨rfl, h.1, h.2 "Alice"⟩

/-! ## Claim C4 -/

/-- C4 counterexample: a record with the negative currency amount
`"$-50"` contributes to the direct year-over-year aggregate that
`process_data` computes over the raw monthly columns
(`calculate_direct_yoy_change` applies no positivity filter): with the
record present the 2024 Q1 total is −50, with it absent the total is
0. -/
theorem c4_counterexample :
    (directYoYChange [⟨fun m y => if m == 1 && y == 2024 then .str "$-50" else .num 0⟩]
        2024 2025 1 3).map (fun d => d.previousYearTotal) = some (-50)
    ∧ (directYoYChange ([] : List RawRow) 2024 2025 1 3).map
        (fun d => d.previousYearTotal) = some 0
    ∧ ((-50 : ℚ)) ≠ 0 := by
  refine ⟨by with_unfolding_all decide, by with_unfolding_all decide, by
    with_unfolding_all decide⟩

/-- C4 amended: a record with non-positive (or NaN) amount is dropped
by `_filter_timeframe` and by the refiltering in
`_create_main_report`, so the pivot report, the budget reconciliation
and the analytics rollups computed from them are exactly as if the
record were absent; the direct year-over-year calculation over the raw
monthly columns, however, includes such records (see the
counterexample). -/
theorem c4_nonpositive_excluded (cfg : Config) (cy : Nat)
    (l1 l2 : List LongRecord) (r : LongRecord) (hr : amtPos r.amt = false) :
    filterTimeframe cy (l1 ++ r :: l2) = filterTimeframe cy (l1 ++ l2)
    ∧ mainReportRecords cfg (l1 ++ r :: l2) = mainReportRecords cfg (l1 ++ l2)
    ∧ createMainReport cfg cy (l1 ++ r :: l2) = createMainReport cfg cy (l1 ++ l2)
    ∧ pipelineReport cfg cy (l1 ++ r :: l2) = pipelineReport cfg cy (l1 ++ l2)
    ∧ budgetReport cfg cy (pipelineReport cfg cy (l1 ++ r :: l2))
        = budgetReport cfg cy (pipelineReport cfg cy (l1 ++ l2))
    ∧ managementStats cfg (pipelineReport cfg cy (l1 ++ r :: l2)).rows cy
        = managementStats cfg (pipelineReport cfg cy (l1 ++ l2)).rows cy := by
  have hft : filterTimeframe cy (l1 ++ r :: l2) = filterTimeframe cy (l1 ++ l2) := by
    simp [filterTimeframe, List.filter_append, List.filter_cons, hr]
  have hmr : mainReportRecords cfg (l1 ++ r :: l2) = mainReportRecords cfg (l1 ++ l2) := by
    simp [mainReportRecords, List.filter_append, List.filter_cons, hr]
  have hcm : createMainReport cfg cy (l1 ++ r :: l2)
      = createMainReport cfg cy (l1 ++ l2) := by
    unfold createMainReport
    rw [hmr]
  have hpl : pipelineReport cfg cy (l1 ++ r :: l2) = pipelineReport cfg cy (l1 ++ l2) := by
    unfold pipelineReport
    rw [hft]
  exact ⟨hft, hmr, hcm, hpl, by rw [hpl], by rw [hpl]⟩

/-- Witness for C4's amended statement at the `"$-50"` record (cleaned
to the amount −50). -/
theorem c4_nonpositive_excluded_witness :
    amtPos (some (-50) : Option ℚ) = false
    ∧ (filterTimeframe 2025
          ([] ++ (⟨"CustA", "M", "RC", "Alice", "B", "A", "AP", "Tech", 1, 2025,
            some (-50)⟩ : LongRecord) :: [])
        = filterTimeframe 2025 ([] ++ [])
      ∧ mainReportRecords []
          ([] ++ (⟨"CustA", "M", "RC", "Alice", "B", "A", "AP", "Tech", 1, 2025,
            some (-50)⟩ : LongRecord) :: [])
        = mainReportRecords [] ([] ++ [])
      ∧ createMainReport [] 2025
          ([] ++ (⟨"CustA", "M", "RC", "Alice", "B", "A", "AP", "Tech", 1, 2025,
            some (-50)⟩ : LongRecord) :: [])
        = createMainReport [] 2025 ([] ++ [])
      ∧ pipelineReport [] 2025
          ([] ++ (⟨"CustA", "M", "RC", "Alice", "B", "A", "AP", "Tech", 1, 2025,
            some (-50)⟩ : LongRecord) :: [])
        = pipelineReport [] 2025 ([] ++ [])
      ∧ budgetReport [] 2025 (pipelineReport [] 2025
          ([] ++ (⟨"CustA", "M", "RC", "Alice", "B", "A", "AP", "Tech", 1, 2025,
            some (-50)⟩ : LongRecord) :: []))
        = budgetReport [] 2025 (pipelineReport [] 2025 ([] ++ []))
      ∧ managementStats [] (pipelineReport [] 2025
          ([] ++ (⟨"CustA", "M", "RC", "Alice", "B", "A", "AP", "Tech", 1, 2025,
            some (-50)⟩ : LongRecord) :: [])).rows 2025
        = managementStats [] (pipelineReport [] 2025 ([] ++ [])).rows 2025) :=
  ⟨by with_unfolding_all decide,
    c4_nonpositive_excluded [] 2025 [] []
      ⟨"CustA", "M", "RC", "Alice", "B", "A", "AP", "Tech", 1, 2025, some (-50)⟩
      (by with_unfolding_all decide)⟩

/-! ## Claim C5 -/

/-- C5: every one of the 8 expected year-quarter columns is present in
the pivot report, and a column absent from the grouped data (no
filtered record falls in that year-quarter) is created with value 0 in
every row. -/
theorem c5_quarter_completeness (cfg : Config) (cy : Nat) (l : List LongRecord)
    (yq : YQ) (hq : yq ∈ expectedQuarters cy) :
    yq ∈ (createMainReport cfg cy l).cols
    ∧ ((∀ r ∈ mainReportRecords cfg l, yqOf r ≠ yq) →
        ∀ row ∈ (createMainReport cfg cy l).rows, row.val yq = 0) := by
  constructor
  · simpa [createMainReport] using hq
  · intro habs row hrow
    simp only [createMainReport] at hrow
    obtain ⟨k, _, hkrow⟩ := List.mem_map.mp (List.mem_mergeSort.mp hrow)
    rw [← hkrow]
    have hnil : (mainReportRecords cfg l).filter (fun r =>
        decide ((r.ae1, r.sector, r.customer) = k) && decide (yqOf r = yq)) = [] := by
      apply List.filter_eq_nil_iff.mpr
      intro r hr
      simp [habs r hr]
    simp [groupSum, hq, hnil]

/-- Witness for C5 at a concrete quarter label and an empty record
list. -/
theorem c5_quarter_completeness_witness :
    ((25, 1) : YQ) ∈ expectedQuarters 2025
    ∧ (((25, 1) : YQ) ∈ (createMainReport [] 2025 []).cols
      ∧ ((∀ r ∈ mainReportRecords [] [], yqOf r ≠ ((25, 1) : YQ)) →
          ∀ row ∈ (createMainReport [] 2025 []).rows, row.val (25, 1) = 0)) :=
  ⟨by decide, c5_quarter_completeness [] 2025 [] (25, 1) (by decide)⟩

/-! ## Claim C6 -/

/-- C6: the currency normalizer `_clean_currency` returns 0.0 on
missing/NaN input; on a string it removes the `$` symbol and comma
separators and trims whitespace, returns 0.0 when the stripped result
is empty and otherwise the parsed float (`none` models the `float`
`ValueError` on a non-numeric remainder); numeric input is cast
directly to float.  The last conjunct exercises the string path on a
concrete currency cell. -/
theorem c6_clean_currency_cases :
    cleanCurrency .na = some 0
    ∧ (∀ s : String, cleanCurrency (.str s) =
        (if stripCurrency s = "" then some 0 else pyFloat (stripCurrency s)))
    ∧ (∀ x : ℚ, cleanCurrency (.num x) = some x)
    ∧ cleanCurrency (.str " $1,000 ") = some 1000
    ∧ cleanCurrency (.str "$2.50") = some (5 / 2) := by
  refine ⟨rfl, fun s => rfl, fun x => ?_,
    by with_unfolding_all decide, by with_unfolding_all decide⟩
  by_cases h : x = 0 <;> simp [cleanCurrency, h]

/-! ## Claim C7 -/

/-- C7: with a zero budget denominator, the guarded
`completion_percentage` computation never divides and returns the 0
sentinel, in the per-salesperson path (calculate_sales_stats), the
company quarterly path (calculate_company_quarterly_data) and the
company annual path (calculate_management_stats). -/
theorem c7_zero_budget_completion (cfg : Config) (b : AEBudget)
    (df : List ReportRow) (name : String) (cy q : Nat)
    (hb : b.q q = 0)
    (hcq : companyBudgetQ cfg q = 0)
    (hca : ((cfg.filter (·.enabled)).map
        (fun ae => ([1, 2, 3, 4].map ae.budgets.q).sum)).sum = 0) :
    (calcQuarterData b df name cy q).completionPercentage = 0
    ∧ (companyQuarter cfg df cy q).completionPercentage = 0
    ∧ (managementStats cfg df cy).companyCompletionPercentage = 0 := by
  refine ⟨?_, ?_, ?_⟩
  · simp [calcQuarterData, hb]
  · simp [companyQuarter, hcq, pyRound_zero]
  · simp only [managementStats]
    rw [hca]
    simp [pyRound_zero]

/-- Witness for C7 at a concrete all-zero-budget configuration. -/
theorem c7_zero_budget_completion_witness :
    ((⟨0, 0, 0, 0⟩ : AEBudget).q 1 = 0
      ∧ companyBudgetQ [⟨"Alice", true, ⟨0, 0, 0, 0⟩⟩] 1 = 0
      ∧ (([(⟨"Alice", true, ⟨0, 0, 0, 0⟩⟩ : AEConfig)].filter (·.enabled)).map
          (fun ae => ([1, 2, 3, 4].map ae.budgets.q).sum)).sum = 0)
    ∧ ((calcQuarterData ⟨0, 0, 0, 0⟩ [] "Alice" 2025 1).completionPercentage = 0
      ∧ (companyQuarter [⟨"Alice", true, ⟨0, 0, 0, 0⟩⟩] [] 2025 1).completionPercentage = 0
      ∧ (managementStats [⟨"Alice", true, ⟨0, 0, 0, 0⟩⟩] [] 2025).companyCompletionPercentage = 0) :=
  ⟨⟨by with_unfolding_all decide, by with_unfolding_all decide, by with_unfolding_all decide⟩,
    c7_zero_budget_completion [⟨"Alice", true, ⟨0, 0, 0, 0⟩⟩] ⟨0, 0, 0, 0⟩ [] "Alice" 2025 1
      (by with_unfolding_all decide) (by with_unfolding_all decide)
      (by with_unfolding_all decide)⟩

/-! ## Claim C1 -/

/-- C1 counterexample: the company quarterly path does NOT return 0
for `year_over_year_change` when the prior-year assigned revenue is 0
— it returns the `float("inf")` sentinel, so the single-0-convention
uniformity the claim states fails on the code. -/
theorem c1_counterexample :
    (companyQuarter [⟨"Alice", true, ⟨0, 0, 0, 0⟩⟩] [] 2025 1).yearOverYearChange
        = RVal.inf
    ∧ (managementStats [⟨"Alice", true, ⟨0, 0, 0, 0⟩⟩] [] 2025).totalYearOverYearChange
        = RVal.inf
    ∧ RVal.inf ≠ RVal.fin 0 := by
  refine ⟨by with_unfolding_all decide, by with_unfolding_all decide, by decide⟩

/-- C1 amended: `completion_percentage` is 0 on a zero budget uniformly
in all three paths, and `year_over_year_change` on zero prior-year
revenue is 0 in the per-salesperson path but the `float("inf")`
sentinel in the company quarterly and company annual paths — the
uniform-convention part of the claim holds only for
`completion_percentage`. -/
theorem c1_zero_denominator_policy (cfg : Config) (b : AEBudget)
    (df : List ReportRow) (name : String) (cy q : Nat)
    (hb : b.q q = 0)
    (hcq : companyBudgetQ cfg q = 0)
    (hca : ((cfg.filter (·.enabled)).map
        (fun ae => ([1, 2, 3, 4].map ae.budgets.q).sum)).sum = 0)
    (hp : sectorSum (aeData df name) false (prevLabel cy q) = 0)
    (hcp : colSum (assignedData df) (prevLabel cy q) = 0)
    (hta : (([1, 2, 3, 4].map (prevLabel cy)).map
        (fun yq => colSum (assignedData df) yq)).sum = 0) :
    ((calcQuarterData b df name cy q).completionPercentage = 0
      ∧ (companyQuarter cfg df cy q).completionPercentage = 0
      ∧ (managementStats cfg df cy).companyCompletionPercentage = 0)
    ∧ (calcQuarterData b df name cy q).yearOverYearChange = 0
    ∧ (companyQuarter cfg df cy q).yearOverYearChange = RVal.inf
    ∧ (managementStats cfg df cy).totalYearOverYearChange = RVal.inf := by
  refine ⟨⟨?_, ?_, ?_⟩, ?_, ?_, ?_⟩
  · simp [calcQuarterData, hb]
  · simp [companyQuarter, hcq, pyRound_zero]
  · simp only [managementStats]
    rw [hca]
    simp [pyRound_zero]
  · simp [calcQuarterData, hp]
  · simp [companyQuarter, hcp]
  · simp only [managementStats]
    rw [hta]
    simp

/-! ## Claims C3 and C8: the budget reconciliation sheet -/

/-- The reconciliation identity at the level of the row values:
`(total − unassigned) + unassigned = total`, with the source's
`if not unassigned_data.empty` guard unfolded. -/
lemma assignedVal_add_unassVal (rep : PivotReport) (name : String) (yq : YQ) :
    assignedVal rep name yq + unassVal rep name yq = totalVal rep name yq := by
  unfold assignedVal
  by_cases h : (unassRows rep name).isEmpty
  · have hnil : unassRows rep name = [] := List.isEmpty_iff.mp h
    simp [unassVal, hnil]
  · simp [h]

/-- Membership of the Assigned row built for an enabled AE. -/
lemma assigned_row_mem (cfg : Config) (cy : Nat) (rep : PivotReport)
    (ae : AEConfig) (hmem : ae ∈ cfg) (hen : ae.enabled = true) :
    mkBudgetRow cy ae.name "Assigned" ""
        (fun q => assignedVal rep ae.name (cy % 100, q)) ∈ budgetReport cfg cy rep := by
  simp only [budgetReport]
  apply List.mem_mergeSort.mpr
  apply List.mem_append_left
  apply List.mem_append_right
  exact List.mem_map.mpr ⟨ae, List.mem_filter.mpr ⟨hmem, hen⟩, rfl⟩

/-- C3: for every enabled salesperson and every current-year quarter
column, the Assigned row value plus the Unassigned value equals the
salesperson's raw total for that quarter (exactly, in ℚ — Assigned is
the residual total minus unassigned), and any emitted Unassigned row
for that salesperson carries exactly the unassigned sum. -/
theorem c3_reconciliation_identity (cfg : Config) (cy : Nat) (rep : PivotReport)
    (ae : AEConfig) (hmem : ae ∈ cfg) (hen : ae.enabled = true) :
    (∃ row ∈ budgetReport cfg cy rep,
        row.ae1 = ae.name ∧ row.sector = "Assigned"
        ∧ ∀ yq ∈ quarterCols cy,
            row.val yq + unassVal rep ae.name yq = totalVal rep ae.name yq)
    ∧ (∀ urow ∈ budgetReport cfg cy rep,
        urow.ae1 = ae.name → urow.sector = UNASSIGNED →
        ∀ yq ∈ quarterCols cy, urow.val yq = unassVal rep ae.name yq) := by
  constructor
  · refine ⟨mkBudgetRow cy ae.name "Assigned" ""
        (fun q => assignedVal rep ae.name (cy % 100, q)),
      assigned_row_mem cfg cy rep ae hmem hen, rfl, rfl, ?_⟩
    intro yq hyq
    obtain ⟨q, _, hq⟩ := List.mem_map.mp hyq
    subst hq
    simpa [mkBudgetRow, hyq] using assignedVal_add_unassVal rep ae.name (cy % 100, q)
  · intro urow hurow hname hsector yq hyq
    simp only [budgetReport] at hurow
    rcases List.mem_append.mp (List.mem_mergeSort.mp hurow) with h | h
    · rcases List.mem_append.mp h with h' | h'
      · obtain ⟨ae', _, hae'⟩ := List.mem_map.mp h'
        rw [← hae'] at hsector
        simp [mkBudgetRow, UNASSIGNED] at hsector
      · obtain ⟨ae', _, hae'⟩ := List.mem_map.mp h'
        rw [← hae'] at hsector
        simp [mkBudgetRow, UNASSIGNED] at hsector
    · obtain ⟨ae', _, hae'⟩ := List.mem_map.mp h
      obtain ⟨q, _, hq⟩ := List.mem_map.mp hyq
      have hn : ae'.name = ae.name := by
        rw [← hname, ← hae']
        rfl
      subst hq
      rw [← hae']
      simp [mkBudgetRow, hyq, hn]

/-- Witness for C3 at a concrete configuration and an empty pivot. -/
theorem c3_reconciliation_identity_witness :
    ((⟨"Alice", true, ⟨1, 2, 3, 4⟩⟩ : AEConfig) ∈
        ([⟨"Alice", true, ⟨1, 2, 3, 4⟩⟩] : Config))
    ∧ ((∃ row ∈ budgetReport [⟨"Alice", true, ⟨1, 2, 3, 4⟩⟩] 2025
          ⟨expectedQuarters 2025, []⟩,
        row.ae1 = "Alice" ∧ row.sector = "Assigned"
        ∧ ∀ yq ∈ quarterCols 2025,
            row.val yq + unassVal ⟨expectedQuarters 2025, []⟩ "Alice" yq
              = totalVal ⟨expectedQuarters 2025, []⟩ "Alice" yq)
      ∧ (∀ urow ∈ budgetReport [⟨"Alice", true, ⟨1, 2, 3, 4⟩⟩] 2025
            ⟨expectedQuarters 2025, []⟩,
          urow.ae1 = "Alice" → urow.sector = UNASSIGNED →
          ∀ yq ∈ quarterCols 2025,
            urow.val yq = unassVal ⟨expectedQuarters 2025, []⟩ "Alice" yq)) :=
  ⟨List.mem_singleton.mpr rfl,
    c3_reconciliation_identity [⟨"Alice", true, ⟨1, 2, 3, 4⟩⟩] 2025
      ⟨expectedQuarters 2025, []⟩ ⟨"Alice", true, ⟨1, 2, 3, 4⟩⟩
      (List.mem_singleton.mpr rfl) rfl⟩

/-- C8: every enabled salesperson gets a Budget row carrying the four
configured quarterly targets, for every pivot report — in particular
when no data rows remain for that salesperson. -/
theorem c8_budget_row_always_emitted (cfg : Config) (cy : Nat) (rep : PivotReport)
    (ae : AEConfig) (hmem : ae ∈ cfg) (hen : ae.enabled = true) :
    ∃ row ∈ budgetReport cfg cy rep,
      row.ae1 = ae.name ∧ row.sector = "Budget" ∧ row.customer = "Budget"
      ∧ ∀ q ∈ ([1, 2, 3, 4] : List Nat), row.val (cy % 100, q) = ae.budgets.q q := by
  refine ⟨mkBudgetRow cy ae.name "Budget" "Budget" ae.budgets.q, ?_, rfl, rfl, rfl, ?_⟩
  · simp only [budgetReport]
    apply List.mem_mergeSort.mpr
    apply List.mem_append_left
    apply List.mem_append_left
    exact List.mem_map.mpr ⟨ae, List.mem_filter.mpr ⟨hmem, hen⟩, rfl⟩
  · intro q hq
    have hmemq : ((cy % 100, q) : YQ) ∈ quarterCols cy := List.mem_map.mpr ⟨q, hq, rfl⟩
    simp [mkBudgetRow, hmemq]

/-- Witness for C8: a salesperson with zero pivot rows still gets its
Budget row with the configured targets. -/
theorem c8_budget_row_always_emitted_witness :
    ((⟨"Riley", true, ⟨274375, 205875, 888509, 935867⟩⟩ : AEConfig) ∈
        ([⟨"Riley", true, ⟨274375, 205875, 888509, 935867⟩⟩] : Config))
    ∧ ∃ row ∈ budgetReport [⟨"Riley", true, ⟨274375, 205875, 888509, 935867⟩⟩] 2025
          ⟨expectedQuarters 2025, []⟩,
        row.ae1 = "Riley" ∧ row.sector = "Budget" ∧ row.customer = "Budget"
        ∧ ∀ q ∈ ([1, 2, 3, 4] : List Nat),
            row.val (2025 % 100, q)
              = (⟨274375, 205875, 888509, 935867⟩ : AEBudget).q q :=
  ⟨List.mem_singleton.mpr rfl,
    c8_budget_row_always_emitted [⟨"Riley", true, ⟨274375, 205875, 888509, 935867⟩⟩]
      2025 ⟨expectedQuarters 2025, []⟩ ⟨"Riley", true, ⟨274375, 205875, 888509, 935867⟩⟩
      (List.mem_singleton.mpr rfl) rfl⟩

/-! ## Claim C9 -/

/-- C9 counterexample: the Unassigned row is emitted whenever the AE
has at least one unassigned-sector pivot row, even if every
current-year quarter value of those rows is 0 — here the single
unassigned row is all-zero (e.g. it carried only prior-year revenue),
an Unassigned row is still emitted while the claim's nonzero-sum
criterion says it must not be. -/
theorem c9_counterexample :
    (∃ row ∈ budgetReport [⟨"Alice", true, ⟨0, 0, 0, 0⟩⟩] 2025
        ⟨expectedQuarters 2025, [⟨"Alice", "AAA - UNASSIGNED", "CustX", fun _ => 0⟩]⟩,
      row.ae1 = "Alice" ∧ row.sector = "AAA - UNASSIGNED")
    ∧ ((quarterCols 2025).map (fun yq =>
        unassVal ⟨expectedQuarters 2025, [⟨"Alice", "AAA - UNASSIGNED", "CustX", fun _ => 0⟩]⟩
          "Alice" yq)).sum = 0 := by
  constructor
  · refine ⟨mkBudgetRow 2025 "Alice" UNASSIGNED "New Accounts"
        (fun q => unassVal ⟨expectedQuarters 2025,
          [⟨"Alice", "AAA - UNASSIGNED", "CustX", fun _ => 0⟩]⟩ "Alice" (2025 % 100, q)),
      ?_, rfl, rfl⟩
    simp only [budgetReport]
    apply List.mem_mergeSort.mpr
    apply List.mem_append_right
    apply List.mem_map.mpr
    refine ⟨⟨"Alice", true, ⟨0, 0, 0, 0⟩⟩, ?_, rfl⟩
    apply List.mem_filter.mpr
    refine ⟨by simp, ?_⟩
    simp [unassRows, aeRows, UNASSIGNED]
  · simp [quarterCols, unassVal, unassRows, aeRows, UNASSIGNED]

/-- C9 amended: an Unassigned/"New Accounts" row is emitted for an
enabled salesperson iff that salesperson has at least one
unassigned-sector row in the pivot (in particular whenever the
unassigned quarter sums are not all zero, but possibly also when they
are); and when there are no unassigned rows the Assigned value equals
the salesperson's raw total for every quarter. -/
theorem c9_unassigned_row_emission (cfg : Config) (cy : Nat) (rep : PivotReport)
    (ae : AEConfig) (hmem : ae ∈ cfg) (hen : ae.enabled = true) :
    ((∃ row ∈ budgetReport cfg cy rep, row.ae1 = ae.name ∧ row.sector = UNASSIGNED)
        ↔ unassRows rep ae.name ≠ [])
    ∧ (unassRows rep ae.name = [] →
        ∀ yq ∈ quarterCols cy, assignedVal rep ae.name yq = totalVal rep ae.name yq)
    ∧ (((quarterCols cy).map (fun yq => unassVal rep ae.name yq)).sum ≠ 0 →
        ∃ row ∈ budgetReport cfg cy rep, row.ae1 = ae.name ∧ row.sector = UNASSIGNED) := by
  have emit : unassRows rep ae.name ≠ [] →
      ∃ row ∈ budgetReport cfg cy rep, row.ae1 = ae.name ∧ row.sector = UNASSIGNED := by
    intro hne
    refine ⟨mkBudgetRow cy ae.name UNASSIGNED "New Accounts"
        (fun q => unassVal rep ae.name (cy % 100, q)), ?_, rfl, rfl⟩
    simp only [budgetReport]
    apply List.mem_mergeSort.mpr
    apply List.mem_append_right
    apply List.mem_map.mpr
    refine ⟨ae, List.mem_filter.mpr ⟨List.mem_filter.mpr ⟨hmem, hen⟩, ?_⟩, rfl⟩
    simpa [List.isEmpty_iff] using hne
  refine ⟨⟨?_, emit⟩, ?_, ?_⟩
  · rintro ⟨row, hrowmem, hname, hsector⟩
    simp only [budgetReport] at hrowmem
    rcases List.mem_append.mp (List.mem_mergeSort.mp hrowmem) with h | h
    · rcases List.mem_append.mp h with h' | h'
      · obtain ⟨ae', _, hae'⟩ := List.mem_map.mp h'
        rw [← hae'] at hsector
        simp [mkBudgetRow, UNASSIGNED] at hsector
      · obtain ⟨ae', _, hae'⟩ := List.mem_map.mp h'
        rw [← hae'] at hsector
        simp [mkBudgetRow, UNASSIGNED] at hsector
    · obtain ⟨ae', hae'mem, hae'⟩ := List.mem_map.mp h
      have hn : ae'.name = ae.name := by
        rw [← hname, ← hae']
        rfl
      have hcond := (List.mem_filter.mp hae'mem).2
      rw [hn] at hcond
      intro hnil
      rw [hnil] at hcond
      simp at hcond
  · intro hnil yq _
    simp [assignedVal, hnil]
  · intro hsum
    apply emit
    intro hnil
    apply hsum
    simp [unassVal, hnil]

/-- Witness for C9's amended statement: a pivot with one nonzero
unassigned row for the AE. -/
theorem c9_unassigned_row_emission_witness :
    ((⟨"Alice", true, ⟨0, 0, 0, 0⟩⟩ : AEConfig) ∈
        ([⟨"Alice", true, ⟨0, 0, 0, 0⟩⟩] : Config))
    ∧ (((∃ row ∈ budgetReport [⟨"Alice", true, ⟨0, 0, 0, 0⟩⟩] 2025
            ⟨expectedQuarters 2025, []⟩,
          row.ae1 = "Alice" ∧ row.sector = UNASSIGNED)
        ↔ unassRows ⟨expectedQuarters 2025, []⟩ "Alice" ≠ [])
      ∧ (unassRows ⟨expectedQuarters 2025, []⟩ "Alice" = [] →
          ∀ yq ∈ quarterCols 2025,
            assignedVal ⟨expectedQuarters 2025, []⟩ "Alice" yq
              = totalVal ⟨expectedQuarters 2025, []⟩ "Alice" yq)
      ∧ (((quarterCols 2025).map (fun yq =>
            unassVal ⟨expectedQuarters 2025, []⟩ "Alice" yq)).sum ≠ 0 →
          ∃ row ∈ budgetReport [⟨"Alice", true, ⟨0, 0, 0, 0⟩⟩] 2025
              ⟨expectedQuarters 2025, []⟩,
            row.ae1 = "Alice" ∧ row.sector = UNASSIGNED)) :=
  ⟨List.mem_singleton.mpr rfl,
    c9_unassigned_row_emission [⟨"Alice", true, ⟨0, 0, 0, 0⟩⟩] 2025
      ⟨expectedQuarters 2025, []⟩ ⟨"Alice", true, ⟨0, 0, 0, 0⟩⟩
      (List.mem_singleton.mpr rfl) rfl⟩

/-- Witness for C1's amended statement at a concrete configuration
with zero budgets and no data. -/
theorem c1_zero_denominator_policy_witness :
    ((⟨0, 0, 0, 0⟩ : AEBudget).q 1 = 0
      ∧ sectorSum (aeData ([] : List ReportRow) "Alice") false (prevLabel 2025 1) = 0
      ∧ colSum (assignedData ([] : List ReportRow)) (prevLabel 2025 1) = 0)
    ∧ (((calcQuarterData ⟨0, 0, 0, 0⟩ [] "Alice" 2025 1).completionPercentage = 0
        ∧ (companyQuarter [⟨"Alice", true, ⟨0, 0, 0, 0⟩⟩] [] 2025 1).completionPercentage = 0
        ∧ (managementStats [⟨"Alice", true, ⟨0, 0, 0, 0⟩⟩] [] 2025).companyCompletionPercentage = 0)
      ∧ (calcQuarterData ⟨0, 0, 0, 0⟩ [] "Alice" 2025 1).yearOverYearChange = 0
      ∧ (companyQuarter [⟨"Alice", true, ⟨0, 0, 0, 0⟩⟩] [] 2025 1).yearOverYearChange = RVal.inf
      ∧ (managementStats [⟨"Alice", true, ⟨0, 0, 0, 0⟩⟩] [] 2025).totalYearOverYearChange = RVal.inf) :=
  ⟨⟨by with_unfolding_all decide, by with_unfolding_all decide, by with_unfolding_all decide⟩,
    c1_zero_denominator_policy [⟨"Alice", true, ⟨0, 0, 0, 0⟩⟩] ⟨0, 0, 0, 0⟩ [] "Alice" 2025 1
      (by with_unfolding_all decide) (by with_unfolding_all decide)
      (by with_unfolding_all decide) (by with_unfolding_all decide)
      (by with_unfolding_all decide) (by with_unfolding_all decide)⟩

end WeeklySales
